import Mathlib

/-!
Verification of the pattern-based code-issue detector and suggestion
generator in `code_analysis.py` (class `CodeAnalyzer`).

Source text is modelled as `List Char` (ASCII model: Python's whitespace
class and `\w` are restricted to their ASCII members, which covers every
character the analyzer's patterns and heuristics distinguish).  Python
floats only ever take values that are exact multiples of 1/2 here, so the
quality score is modelled as `ℚ`.  The single call to `random.random()`
is modelled by an explicit boolean parameter `coin` standing for the
event `random.random() < 0.3`.

The regular expressions of `code_patterns` are embedded as syntax trees
(`Regex`) matched with Brzozowski derivatives; `re.search` on a line is
`searchM` (a match starting at any position), a `^`-anchored pattern is
`prefixM` (a match starting at position 0), and a `^...$` pattern is
`fullM`.  The negative lookahead of the `unused_imports` rule is
`searchNLA`.
-/

/-- Whitespace as recognised by Python's `str.strip`, `str.lstrip` and the
regex class `\s` (ASCII part). -/
def isPySpace (c : Char) : Bool :=
  c == ' ' || c == '\t' || c == '\n' || c == '\r' || c == Char.ofNat 11 || c == Char.ofNat 12

/-- Python `str.lstrip()`. -/
def pyLstrip (l : List Char) : List Char := l.dropWhile isPySpace

/-- Python `str.strip()`. -/
def pyStrip (l : List Char) : List Char :=
  ((l.dropWhile isPySpace).reverse.dropWhile isPySpace).reverse

/-- Python `str.split('\n')`. -/
def splitNl : List Char → List (List Char)
  | [] => [[]]
  | c :: cs =>
    if c = '\n' then [] :: splitNl cs
    else
      match splitNl cs with
      | [] => [[c]]
      | l :: ls => (c :: l) :: ls

/-- Python substring containment `needle in hay`. -/
def containsSub (needle hay : List Char) : Bool :=
  hay.tails.any (fun t => needle.isPrefixOf t)

/-! ## A small regex engine (Brzozowski derivatives) -/

/-- Regular-expression syntax: the constructs used by `code_patterns`.
A character class is a predicate on characters. -/
inductive Regex where
  | nul
  | eps
  | cls (p : Char → Bool)
  | seq (a b : Regex)
  | alt (a b : Regex)
  | star (a : Regex)

/-- Smart sequencing (simplifies the units that derivatives create). -/
def seqS : Regex → Regex → Regex
  | .nul, _ => .nul
  | .eps, b => b
  | a, b => .seq a b

/-- Smart alternation. -/
def altS : Regex → Regex → Regex
  | .nul, b => b
  | a, .nul => a
  | a, b => .alt a b

/-- Does the regex accept the empty string? -/
def nullable : Regex → Bool
  | .nul => false
  | .eps => true
  | .cls _ => false
  | .seq a b => nullable a && nullable b
  | .alt a b => nullable a || nullable b
  | .star _ => true

/-- Brzozowski derivative with respect to one character. -/
def derivR : Regex → Char → Regex
  | .nul, _ => .nul
  | .eps, _ => .nul
  | .cls p, c => if p c then .eps else .nul
  | .seq a b, c => altS (seqS (derivR a c) b) (if nullable a then derivR b c else .nul)
  | .alt a b, c => altS (derivR a c) (derivR b c)
  | .star a, c => seqS (derivR a c) (.star a)

/-- Does some prefix of `cs` match `r`?  This is `re.search` for a
`^`-anchored pattern. -/
def prefixM (r : Regex) : List Char → Bool
  | [] => nullable r
  | c :: cs => nullable r || prefixM (derivR r c) cs

/-- Does the whole of `cs` match `r`?  This is `re.search` for a pattern
anchored on both sides. -/
def fullM (r : Regex) : List Char → Bool
  | [] => nullable r
  | c :: cs => fullM (derivR r c) cs

/-- `re.search`: a match may start at any position. -/
def searchM (r : Regex) : List Char → Bool
  | [] => prefixM r []
  | c :: cs => prefixM r (c :: cs) || searchM r cs

/-- `re.search` for `body(?!veto)`: at some start position, some segment
matches `body` exactly and `veto` does not match at the segment's end. -/
def searchNLA (body veto : Regex) : List Char → Bool
  | [] => fullM body [] && !(prefixM veto [])
  | c :: cs =>
    (List.range (cs.length + 2)).any
      (fun k => fullM body ((c :: cs).take k) && !(prefixM veto ((c :: cs).drop k)))
    || searchNLA body veto cs

/-- Single literal character. -/
def chR (c : Char) : Regex := .cls (fun x => x == c)

/-- Literal string. -/
def strR (s : String) : Regex := s.data.foldr (fun c r => .seq (chR c) r) .eps

/-- `r+`. -/
def plusR (r : Regex) : Regex := .seq r (.star r)

/-- `r?`. -/
def optR (r : Regex) : Regex := .alt .eps r

/-- `r{n}` (n-fold sequence). -/
def repN : Nat → Regex → Regex
  | 0, _ => .eps
  | n + 1, r => .seq r (repN n r)

/-- `r{n,}`. -/
def atLeast (n : Nat) (r : Regex) : Regex := .seq (repN n r) (.star r)

/-- `(a|b|...)`. -/
def altsR : List Regex → Regex
  | [] => .nul
  | [r] => r
  | r :: rs => .alt r (altsR rs)

/-- `\s`. -/
def spcC : Regex := .cls isPySpace

/-- `\w` (ASCII part). -/
def wordC : Regex := .cls (fun c => c.isAlphanum || c == '_')

/-- `.` (any character except a newline). -/
def dotC : Regex := .cls (fun c => !(c == '\n'))

/-! ## Strings without newlines cannot match a regex that forces one -/

/-- `OnlyNl r`: every string accepted by `r` contains a newline (a
syntactic sufficient condition). -/
def OnlyNl : Regex → Prop
  | .nul => True
  | .eps => False
  | .cls p => ∀ c, p c = true → c = '\n'
  | .seq a b => OnlyNl a ∨ OnlyNl b
  | .alt a b => OnlyNl a ∧ OnlyNl b
  | .star _ => False

/-! ## The pattern catalog (`CodeAnalyzer.__init__`, `self.code_patterns`) -/

/-- The character `'` (apostrophe). -/
def squoteCh : Char := Char.ofNat 39

/-- The character `"`. -/
def dquoteCh : Char := Char.ofNat 34

/-- The character `\x7b` (opening curly brace). -/
def lbraceCh : Char := Char.ofNat 123

/-- The character `\x7d` (closing curly brace). -/
def rbraceCh : Char := Char.ofNat 125

/-- The regex class of the two quote characters. -/
def quoteCls : Regex := .cls (fun c => c == squoteCh || c == dquoteCh)

/-- The regex class of everything but the two quote characters. -/
def notQuoteCls : Regex := .cls (fun c => !(c == squoteCh || c == dquoteCh))

/-- `(w1|w2|...)\s*=\s*['"][^'"]+['"]` — the shared shape of every
`hardcoded_secrets` pattern. -/
def secretsRegex (ws : List String) : Regex :=
  .seq (altsR (ws.map strR))
    (.seq (.star spcC)
      (.seq (chR '=')
        (.seq (.star spcC) (.seq quoteCls (.seq (plusR notQuoteCls) quoteCls)))))

/-- `^.{80,}$` (`long_lines`, identical in all four tables); matched with
`fullM`, an optional final newline standing for `$` before a trailing
newline. -/
def longLineRegex : Regex := .seq (atLeast 80 dotC) (optR (chR '\n'))

/-- `(?:\n\s+.*)` — one continuation line of the complex-function rules. -/
def contLineRegex : Regex := .seq (chR '\n') (.seq (plusR spcC) (.star dotC))

/-- `def\s+\w+\s*\([^)]*\):\s*` — head of python `complex_function`. -/
def pyComplexHead : Regex :=
  .seq (strR "def")
    (.seq (plusR spcC)
      (.seq (plusR wordC)
        (.seq (.star spcC)
          (.seq (chR '(')
            (.seq (.star (.cls (fun c => !(c == ')'))))
              (.seq (chR ')') (.seq (chR ':') (.star spcC))))))))

/-- python `complex_function`: `def\s+\w+\s*\([^)]*\):\s*(?:\n\s+.*){20,}`. -/
def pyComplexRegex : Regex := .seq pyComplexHead (atLeast 20 contLineRegex)

/-- `#\s*TODO` (python `todo_comments`). -/
def pyTodoRegex : Regex := .seq (chR '#') (.seq (.star spcC) (strR "TODO"))

/-- `//\s*TODO` (javascript and java `todo_comments`). -/
def slashTodoRegex : Regex := .seq (strR "//") (.seq (.star spcC) (strR "TODO"))

/-- `(//|#)\s*TODO` (default `todo_comments`). -/
def defaultTodoRegex : Regex :=
  .seq (.alt (strR "//") (chR '#')) (.seq (.star spcC) (strR "TODO"))

/-- `import\s+\w+` — body of `unused_imports` (before the lookahead). -/
def importBodyRegex : Regex := .seq (strR "import") (.seq (plusR spcC) (plusR wordC))

/-- `\s+as` — the negative lookahead of `unused_imports`. -/
def importVetoRegex : Regex := .seq (plusR spcC) (strR "as")

/-- `^[A-Z_][A-Z0-9_]*\s*=` (python `global_variables`); matched with
`prefixM` because of the `^` anchor. -/
def globalVarRegex : Regex :=
  .seq (.cls (fun c => ('A' ≤ c && c ≤ 'Z') || c == '_'))
    (.seq (.star (.cls (fun c => ('A' ≤ c && c ≤ 'Z') || c.isDigit || c == '_')))
      (.seq (.star spcC) (chR '=')))

/-- javascript `complex_function`:
`function\s+\w+\s*\([^)]*\)\s*\x7b(?:\n\s+.*){20,}\x7d`. -/
def jsComplexRegex : Regex :=
  .seq (strR "function")
    (.seq (plusR spcC)
      (.seq (plusR wordC)
        (.seq (.star spcC)
          (.seq (chR '(')
            (.seq (.star (.cls (fun c => !(c == ')'))))
              (.seq (chR ')')
                (.seq (.star spcC)
                  (.seq (chR lbraceCh)
                    (.seq (atLeast 20 contLineRegex) (chR rbraceCh))))))))))

/-- java `complex_method`:
`(public|private|protected)\s+\w+\s+\w+\s*\([^)]*\)\s*\x7b(?:\n\s+.*){20,}\x7d`. -/
def javaComplexRegex : Regex :=
  .seq (altsR [strR "public", strR "private", strR "protected"])
    (.seq (plusR spcC)
      (.seq (plusR wordC)
        (.seq (plusR spcC)
          (.seq (plusR wordC)
            (.seq (.star spcC)
              (.seq (chR '(')
                (.seq (.star (.cls (fun c => !(c == ')'))))
                  (.seq (chR ')')
                    (.seq (.star spcC)
                      (.seq (chR lbraceCh)
                        (.seq (atLeast 20 contLineRegex) (chR rbraceCh))))))))))))

/-- java `catch_exception`: `catch\s*\(\s*Exception\s+`. -/
def catchExceptionRegex : Regex :=
  .seq (strR "catch")
    (.seq (.star spcC)
      (.seq (chR '(') (.seq (.star spcC) (.seq (strR "Exception") (plusR spcC)))))

/-- java `magic_numbers`: `[^\\]\s+[0-9]+\s+`. -/
def magicNumbersRegex : Regex :=
  .seq (.cls (fun c => !(c == '\\')))
    (.seq (plusR spcC) (.seq (plusR (.cls Char.isDigit)) (plusR spcC)))

/-- `var\s+` (javascript `var_use`). -/
def varUseRegex : Regex := .seq (strR "var") (plusR spcC)

/-- `self.code_patterns['python']`, in insertion order; each rule is paired
with its per-line `re.search`-style matcher. -/
def pythonPatterns : List (String × (List Char → Bool)) :=
  [("hardcoded_secrets", fun l =>
      searchM (secretsRegex ["password", "secret", "api_key", "apikey", "token"]) l),
   ("print_statements", fun l => searchM (strR "print(") l),
   ("todo_comments", fun l => searchM pyTodoRegex l),
   ("long_lines", fun l => fullM longLineRegex l),
   ("complex_function", fun l => searchM pyComplexRegex l),
   ("unused_imports", fun l => searchNLA importBodyRegex importVetoRegex l),
   ("bare_except", fun l => searchM (strR "except:") l),
   ("global_variables", fun l => prefixM globalVarRegex l)]

/-- `self.code_patterns['javascript']`, in insertion order. -/
def javascriptPatterns : List (String × (List Char → Bool)) :=
  [("hardcoded_secrets", fun l =>
      searchM (secretsRegex ["password", "secret", "apiKey", "token"]) l),
   ("console_log", fun l => searchM (strR "console.log(") l),
   ("todo_comments", fun l => searchM slashTodoRegex l),
   ("long_lines", fun l => fullM longLineRegex l),
   ("complex_function", fun l => searchM jsComplexRegex l),
   ("var_use", fun l => searchM varUseRegex l),
   ("eval_use", fun l => searchM (strR "eval(") l)]

/-- `self.code_patterns['java']`, in insertion order. -/
def javaPatterns : List (String × (List Char → Bool)) :=
  [("hardcoded_secrets", fun l =>
      searchM (secretsRegex ["password", "secret", "apiKey", "token"]) l),
   ("system_out", fun l => searchM (strR "System.out.println") l),
   ("todo_comments", fun l => searchM slashTodoRegex l),
   ("long_lines", fun l => fullM longLineRegex l),
   ("complex_method", fun l => searchM javaComplexRegex l),
   ("catch_exception", fun l => searchM catchExceptionRegex l),
   ("magic_numbers", fun l => searchM magicNumbersRegex l)]

/-- `self.code_patterns['default']`, in insertion order. -/
def defaultPatterns : List (String × (List Char → Bool)) :=
  [("hardcoded_secrets", fun l =>
      searchM (secretsRegex ["password", "secret", "apiKey", "token"]) l),
   ("todo_comments", fun l => searchM defaultTodoRegex l),
   ("long_lines", fun l => fullM longLineRegex l)]

/-! ## Data model -/

/-- One detected concern.  Pattern issues carry the 1-based `lines` list;
heuristic and orchestrator issues do not (`none`). -/
structure Issue where
  type : String
  description : String
  lines : Option (List Nat)
deriving DecidableEq, Repr

/-- One improvement suggestion; `code_after` is attached only when the
language table has an example. -/
structure Suggestion where
  issue : String
  suggestion : String
  code_before : String
  code_after : Option String
deriving DecidableEq, Repr

/-- The record returned by `analyze_code`. -/
structure AnalysisResult where
  quality_score : ℚ
  issues : List Issue
  suggestions : List Suggestion
deriving DecidableEq, Repr

/-! ## Line scanner (`CodeAnalyzer._pattern_analysis`) -/

/-- Python `str.title()` after `str.replace('_', ' ')`, for the rule-name
to issue-type conversion (ASCII). -/
def titleGo : Bool → List Char → List Char
  | _, [] => []
  | startW, c :: cs =>
    if c.isAlpha then (if startW then c.toUpper else c.toLower) :: titleGo false cs
    else c :: titleGo true cs

/-- `pattern_name.replace('_', ' ').title()`. -/
def pyTitle (s : String) : String :=
  ⟨titleGo true (s.data.map (fun c => if c = '_' then ' ' else c))⟩

/-- `', '.join(map(str, matches))`. -/
def joinNums (ms : List Nat) : String := String.intercalate ", " (ms.map toString)

/-- The `issue_descriptions` table of `_pattern_analysis`; `none` for rule
names absent from it (such as java's `complex_method`), which are then
silently dropped. -/
def descFor (name : String) (ms : List Nat) : Option String :=
  if name = "hardcoded_secrets" then
    some ("Potential hardcoded secrets found on lines: " ++ joinNums ms)
  else if name = "print_statements" then
    some ("Print statements found on lines: " ++ joinNums ms)
  else if name = "todo_comments" then
    some ("TODO comments found on lines: " ++ joinNums ms)
  else if name = "long_lines" then
    some ("Long lines (>80 chars) found on lines: " ++ joinNums ms)
  else if name = "complex_function" then
    some "Complex function detected. Consider breaking it down."
  else if name = "unused_imports" then
    some "Potentially unused imports detected."
  else if name = "bare_except" then
    some "Bare except clauses found. Consider catching specific exceptions."
  else if name = "global_variables" then
    some "Global variables detected. Consider encapsulation."
  else if name = "console_log" then
    some ("Console log statements found on lines: " ++ joinNums ms)
  else if name = "var_use" then
    some ("Use of \x27var\x27 keyword. Consider using \x27let\x27 or \x27const\x27.")
  else if name = "eval_use" then
    some "Use of eval() detected. This can be a security risk."
  else if name = "system_out" then
    some ("System.out.println found on lines: " ++ joinNums ms)
  else if name = "catch_exception" then
    some "Catching generic Exception. Consider catching specific exceptions."
  else if name = "magic_numbers" then
    some "Magic numbers detected. Consider using named constants."
  else none

/-- The `matches` list of one rule-loop iteration of `_pattern_analysis`:
the 1-based numbers of the lines where the rule fires. -/
def ruleMatches (lines : List (List Char)) (f : List Char → Bool) : List Nat :=
  (lines.enum.filter (fun p => f p.2)).map (fun p => p.1 + 1)

/-- One iteration of the rule loop of `_pattern_analysis`: a rule with
matches and a known description yields one `Issue`. -/
def ruleIssue (lines : List (List Char)) (nr : String × (List Char → Bool)) : Option Issue :=
  if (ruleMatches lines nr.2).isEmpty then none
  else
    match descFor nr.1 (ruleMatches lines nr.2) with
    | none => none
    | some d => some ⟨pyTitle nr.1, d, some (ruleMatches lines nr.2)⟩

/-- `if file_extension in self.code_patterns: ... else: ...['default']`. -/
def patternsFor (ext : String) : List (String × (List Char → Bool)) :=
  if ext = "python" then pythonPatterns
  else if ext = "javascript" then javascriptPatterns
  else if ext = "java" then javaPatterns
  else defaultPatterns

/-- `CodeAnalyzer._pattern_analysis`. -/
def pattern_analysis (code : List Char) (ext : String) : List Issue :=
  (patternsFor ext).filterMap (ruleIssue (splitNl code))

/-! ## Heuristic analyzer (`CodeAnalyzer._simulated_ai_analysis`) -/

/-- The nesting loop: `max` over all lines of
`len(line) - len(line.lstrip())`. -/
def maxIndentation (code : List Char) : Nat :=
  (splitNl code).foldl (fun m l => max m (l.length - (pyLstrip l).length)) 0

/-- `CodeAnalyzer._simulated_ai_analysis`: size check, nesting check, then
one language-specific keyword check. -/
def simulated_ai_analysis (code : List Char) (ext : String) : List Issue :=
  let lines := splitNl code
  (if lines.length > 200 then
    [⟨"Code Size", "File is quite large. Consider breaking it into smaller modules.", none⟩]
   else [])
  ++ (if maxIndentation code > 16 then
    [⟨"Deep Nesting",
      "Code contains deeply nested blocks. Consider refactoring to reduce nesting.", none⟩]
   else [])
  ++ (if ext = "py" then
       (if containsSub "except Exception as e:".data code || containsSub "except:".data code then
         [⟨"Exception Handling",
           "Generic exception handling detected. Consider catching specific exceptions.", none⟩]
        else [])
      else if ext = "js" then
       (if containsSub "==".data code && !(containsSub "===".data code) then
         [⟨"Type Comparison",
           "Use of loose equality (==) detected. Consider using strict equality (===).", none⟩]
        else [])
      else if ext = "java" then
       (if containsSub "public static void main".data code && lines.length > 100 then
         [⟨"Main Method Size",
           "Large main method detected. Consider breaking functionality into separate methods.",
           none⟩]
        else [])
      else [])

/-! ## Suggestion synthesizer (`CodeAnalyzer._generate_suggestions`) -/

/-- One entry of the `solutions` table. -/
structure SolTemplate where
  issue : String
  suggestion : String
  code_before : String
deriving DecidableEq, Repr

/-- The `solutions` table, in insertion order. -/
def solutions : List (String × SolTemplate) :=
  [("Hardcoded Secrets",
    ⟨"Hardcoded credentials or API keys were found in your code.",
     "Use environment variables or a secure configuration system for sensitive data.",
     "api_key = \x27ac87520ee84f3\x27"⟩),
   ("Print Statements",
    ⟨"Debug print statements were found in production code.",
     "Replace print statements with proper logging mechanisms.",
     "print(\x27Debug value:\x27, x)"⟩),
   ("Long Lines",
    ⟨"Code contains excessively long lines that reduce readability.",
     "Break long lines into multiple lines following style guides.",
     "def very_long_function_name(extremely_long_parameter_name1, extremely_long_parameter_name2, extremely_long_parameter_name3, extremely_long_parameter_name4):"⟩),
   ("Complex Function",
    ⟨"Complex, lengthy functions were detected.",
     "Break down complex functions into smaller, more manageable ones that follow the single responsibility principle.",
     "def process_data(data):\n    # 50+ lines of code with multiple responsibilities"⟩),
   ("Console Log",
    ⟨"Debug console.log statements were found in production code.",
     "Replace console.log with proper logging mechanisms or remove them in production.",
     "console.log(\x27Debug info:\x27, data);"⟩),
   ("Var Use",
    ⟨"Usage of \x27var\x27 keyword which has function scope.",
     "Replace \x27var\x27 with \x27const\x27 for variables that don\x27t change, or \x27let\x27 for those that do.",
     "var userId = 42;"⟩),
   ("Bare Except",
    ⟨"Catching exceptions without specifying the exception type.",
     "Catch specific exceptions rather than using bare except clauses.",
     "try:\n    risky_operation()\nexcept:\n    handle_error()"⟩)]

/-- The `code_after` table: language-specific replacement examples,
looked up by solution key and language code. -/
def codeAfter (key lang : String) : Option String :=
  if key = "Hardcoded Secrets" then
    if lang = "py" then some "import os\napi_key = os.environ.get(\x27API_KEY\x27)"
    else if lang = "js" then some "const apiKey = process.env.API_KEY;"
    else if lang = "java" then some "String apiKey = System.getenv(\"API_KEY\");"
    else none
  else if key = "Print Statements" then
    if lang = "py" then some "import logging\nlogging.debug(\x27Debug value: %s\x27, x)"
    else if lang = "js" then
      some "if (process.env.NODE_ENV !== \x27production\x27) \x7b\n  console.log(\x27Debug value:\x27, x);\n\x7d"
    else if lang = "java" then
      some "Logger logger = Logger.getLogger(MyClass.class.getName());\nlogger.fine(\"Debug value: \" + x);"
    else none
  else if key = "Long Lines" then
    if lang = "py" then
      some "def very_long_function_name(\n    extremely_long_parameter_name1,\n    extremely_long_parameter_name2,\n    extremely_long_parameter_name3,\n    extremely_long_parameter_name4\n):"
    else if lang = "js" then
      some "function veryLongFunctionName(\n  extremelyLongParameterName1,\n  extremelyLongParameterName2,\n  extremelyLongParameterName3,\n  extremelyLongParameterName4\n) \x7b"
    else if lang = "java" then
      some "public void veryLongMethodName(\n    String extremelyLongParameterName1,\n    String extremelyLongParameterName2,\n    String extremelyLongParameterName3,\n    String extremelyLongParameterName4\n) \x7b"
    else none
  else if key = "Complex Function" then
    if lang = "py" then
      some "def process_data(data):\n    validated_data = validate_data(data)\n    processed_data = transform_data(validated_data)\n    return save_results(processed_data)\n\ndef validate_data(data):\n    # Validation logic here\n    return validated_data\n\ndef transform_data(data):\n    # Transformation logic here\n    return transformed_data\n\ndef save_results(data):\n    # Saving logic here\n    return result"
    else if lang = "js" then
      some "function processData(data) \x7b\n  const validatedData = validateData(data);\n  const processedData = transformData(validatedData);\n  return saveResults(processedData);\n\x7d\n\nfunction validateData(data) \x7b\n  // Validation logic here\n  return validatedData;\n\x7d\n\nfunction transformData(data) \x7b\n  // Transformation logic here\n  return transformedData;\n\x7d\n\nfunction saveResults(data) \x7b\n  // Saving logic here\n  return result;\n\x7d"
    else if lang = "java" then
      some "public Result processData(Data data) \x7b\n    Data validatedData = validateData(data);\n    Data processedData = transformData(validatedData);\n    return saveResults(processedData);\n\x7d\n\nprivate Data validateData(Data data) \x7b\n    // Validation logic here\n    return validatedData;\n\x7d\n\nprivate Data transformData(Data data) \x7b\n    // Transformation logic here\n    return transformedData;\n\x7d\n\nprivate Result saveResults(Data data) \x7b\n    // Saving logic here\n    return result;\n\x7d"
    else none
  else if key = "Console Log" then
    if lang = "js" then some "import logger from \x27./logger\x27;\nlogger.debug(\x27Debug info:\x27, data);"
    else none
  else if key = "Var Use" then
    if lang = "js" then some "const userId = 42;" else none
  else if key = "Bare Except" then
    if lang = "py" then
      some "try:\n    risky_operation()\nexcept ValueError as e:\n    handle_specific_error(e)\nexcept Exception as e:\n    handle_general_error(e)"
    else none
  else none

/-- `lang_map.get(file_extension, 'default')`.  Note that the table's own
`'default': 'py'` entry is consulted only when the extension is literally
the string `"default"`; any other unknown extension yields the literal
string `"default"` from the `.get` fallback argument. -/
def langMap (ext : String) : String :=
  if ext = "py" then "py"
  else if ext = "js" then "js"
  else if ext = "ts" then "js"
  else if ext = "java" then "java"
  else if ext = "default" then "py"
  else "default"

/-- The suggestion loop of `_generate_suggestions`, before deduplication:
skip the excluded issue types, then take the first `solutions` entry whose
key is a substring of the issue type. -/
def rawSuggestions (issues : List Issue) (ext : String) : List Suggestion :=
  let lang := langMap ext
  issues.filterMap (fun issue =>
    if issue.type = "Todo Comments" ∨ issue.type = "AI Analysis Error" then none
    else
      match solutions.find? (fun kt => containsSub kt.1.data issue.type.data) with
      | none => none
      | some kt => some ⟨kt.2.issue, kt.2.suggestion, kt.2.code_before, codeAfter kt.1 lang⟩)

/-- The deduplication loop of `_generate_suggestions`: `seen` is the
`suggestion_texts` set. -/
def dedupGo (seen : List String) : List Suggestion → List Suggestion
  | [] => []
  | x :: xs =>
    if seen.contains x.suggestion then dedupGo seen xs
    else x :: dedupGo (x.suggestion :: seen) xs

/-- `CodeAnalyzer._generate_suggestions` (its `code` argument is unused in
the source as well). -/
def generate_suggestions (_code : List Char) (issues : List Issue) (ext : String) :
    List Suggestion :=
  dedupGo [] (rawSuggestions issues ext)

/-! ## Orchestrator (`CodeAnalyzer.analyze_code`) -/

/-- The issue returned for empty or whitespace-only input. -/
def emptyFileIssue : Issue :=
  ⟨"Empty File", "The file appears to be empty or contains only whitespace.", none⟩

/-- The issue appended with probability 0.3 when depth is "Deep". -/
def maintainabilityIssue : Issue :=
  ⟨"Code Maintainability",
   "Consider adding more inline documentation to improve code maintainability.", none⟩

/-- The final issue list: scanner results, heuristic results, then the
coin-conditioned maintainability issue (only at depth "Deep"). -/
def finalIssues (code : List Char) (ext depth : String) (coin : Bool) : List Issue :=
  let issues := pattern_analysis code ext ++ simulated_ai_analysis code ext
  if coin && (depth == "Deep") then issues ++ [maintainabilityIssue] else issues

/-- `CodeAnalyzer.analyze_code`.  `coin` models `random.random() < 0.3`;
the filename argument is unused in the source as well. -/
def analyze_code (code : List Char) (_filename ext depth : String) (coin : Bool) :
    AnalysisResult :=
  if code.isEmpty || (pyStrip code).isEmpty then
    { quality_score := 5, issues := [emptyFileIssue], suggestions := [] }
  else
    { quality_score := max 1 (10 - ((finalIssues code ext depth coin).length : ℚ) * (1/2)),
      issues := finalIssues code ext depth coin,
      suggestions := generate_suggestions code (finalIssues code ext depth coin) ext }

/-! ## Deduplication, stated the way the spec words it -/

/-- Deduplication by advice text as the spec words it: keep the first
occurrence, preserve relative order. -/
def specDedup : List Suggestion → List Suggestion
  | [] => []
  | x :: xs => x :: specDedup (xs.filter (fun y => !(y.suggestion == x.suggestion)))
termination_by l => l.length
decreasing_by
  simp only [List.length_cons]
  exact Nat.lt_succ_of_le (List.length_filter_le _ _)

/-- C8's spec-words width of one line: the count of leading space/tab
characters before the first non-whitespace character. -/
def specLineSpaceTabWidth (l : List Char) : Nat :=
  ((l.takeWhile isPySpace).filter (fun c => c == ' ' || c == '\t')).length

/-- C8's spec-words maximum width over all lines. -/
def specMaxSpaceTabWidth (code : List Char) : Nat :=
  (splitNl code).foldl (fun m l => max m (specLineSpaceTabWidth l)) 0

/-- A line of 17 carriage returns and one letter: Python's `lstrip`
strips the carriage returns, the spec's space/tab count does not see
them. -/
def badNest : List Char := List.replicate 17 '\r' ++ ['x']

/-- C4's input: five lines, `api_key = "ac87520ee84f3"` as line 3. -/
def c4code : List Char := "\n\napi_key = \"ac87520ee84f3\"\n\n".data

/-- C5's input: one line with a secret the default table recognises. -/
def c5code : List Char := "password = \"abc\"".data

/-- C6's witness input: two lines that both map to the same suggestion
template. -/
def c6code : List Char := "password = \"a\"\nsecret = \"b\"".data

/-! ## Helper lemmas -/

theorem splitNl_ne_nil (cs : List Char) : splitNl cs ≠ [] := by
  induction cs with
  | nil => simp [splitNl]
  | cons c cs ih =>
    simp only [splitNl]
    split
    · simp
    · split <;> simp

theorem splitNl_no_nl (cs : List Char) : ∀ l ∈ splitNl cs, '\n' ∉ l := by
  induction cs with
  | nil =>
    intro l hl
    simp only [splitNl, List.mem_singleton] at hl
    simp [hl]
  | cons c cs ih =>
    intro l hl
    simp only [splitNl] at hl
    split at hl
    · rcases List.mem_cons.mp hl with hl | hl
      · simp [hl]
      · exact ih l hl
    · rename_i h
      split at hl
      · rename_i hs
        exact absurd hs (splitNl_ne_nil cs)
      · rename_i x ls hs
        rcases List.mem_cons.mp hl with hl | hl
        · subst hl
          intro hmem
          rcases List.mem_cons.mp hmem with hc | hx
          · exact h hc.symm
          · exact ih x (by rw [hs]; exact List.mem_cons_self x ls) hx
        · exact ih l (by rw [hs]; exact List.mem_cons_of_mem x hl)

theorem onlyNl_not_nullable : ∀ {r : Regex}, OnlyNl r → nullable r = false := by
  intro r
  induction r with
  | nul => intro _; rfl
  | eps => intro h; exact h.elim
  | cls p => intro _; rfl
  | seq a b iha ihb =>
    intro h
    rcases h with h | h
    · simp [nullable, iha h]
    · simp [nullable, ihb h]
  | alt a b iha ihb =>
    intro h
    simp [nullable, iha h.1, ihb h.2]
  | star a ih => intro h; exact h.elim

theorem onlyNl_seqS {a b : Regex} (h : OnlyNl a ∨ OnlyNl b) : OnlyNl (seqS a b) := by
  unfold seqS
  split
  · trivial
  · exact h.resolve_left (fun hf => hf.elim)
  · exact h

theorem onlyNl_altS {a b : Regex} (ha : OnlyNl a) (hb : OnlyNl b) : OnlyNl (altS a b) := by
  unfold altS
  split
  · exact hb
  · exact ha
  · exact ⟨ha, hb⟩

theorem onlyNl_derivR : ∀ {r : Regex} {c : Char}, OnlyNl r → ¬ c = '\n' →
    OnlyNl (derivR r c) := by
  intro r
  induction r with
  | nul => intro c _ _; trivial
  | eps => intro c h _; exact h.elim
  | cls p =>
    intro c h hc
    have hp : p c = false := by
      cases hpc : p c with
      | false => rfl
      | true => exact absurd (h c hpc) hc
    simp only [derivR, hp, if_false]
    trivial
  | seq a b iha ihb =>
    intro c h hc
    apply onlyNl_altS
    · apply onlyNl_seqS
      rcases h with h | h
      · exact Or.inl (iha h hc)
      · exact Or.inr h
    · rcases h with h | h
      · simp only [onlyNl_not_nullable h, if_false]
        trivial
      · cases hn : nullable a with
        | true => rw [if_pos rfl]; exact ihb h hc
        | false =>
          rw [if_neg (by simp)]
          trivial
  | alt a b iha ihb =>
    intro c h hc
    exact onlyNl_altS (iha h.1 hc) (ihb h.2 hc)
  | star a ih => intro c h _; exact h.elim

theorem prefixM_false_of_onlyNl :
    ∀ (cs : List Char) (r : Regex), OnlyNl r → (∀ c ∈ cs, ¬ c = '\n') →
      prefixM r cs = false := by
  intro cs
  induction cs with
  | nil => intro r h _; simpa [prefixM] using onlyNl_not_nullable h
  | cons c cs ih =>
    intro r h hc
    simp only [prefixM, onlyNl_not_nullable h, Bool.false_or]
    exact ih _ (onlyNl_derivR h (hc c (List.mem_cons_self c cs)))
      (fun d hd => hc d (List.mem_cons_of_mem c hd))

theorem searchM_false_of_onlyNl :
    ∀ (cs : List Char) (r : Regex), OnlyNl r → (∀ c ∈ cs, ¬ c = '\n') →
      searchM r cs = false := by
  intro cs
  induction cs with
  | nil => intro r h _; simpa [searchM] using prefixM_false_of_onlyNl [] r h (by simp)
  | cons c cs ih =>
    intro r h hc
    simp only [searchM, Bool.or_eq_false_iff]
    exact ⟨prefixM_false_of_onlyNl _ r h hc,
      ih r h (fun d hd => hc d (List.mem_cons_of_mem c hd))⟩

theorem mem_of_mem_enumFrom {α : Type} {p : Nat × α} :
    ∀ {l : List α} {n : Nat}, p ∈ List.enumFrom n l → p.2 ∈ l := by
  intro l
  induction l with
  | nil => intro n h; simp [List.enumFrom] at h
  | cons x xs ih =>
    intro n h
    rw [List.enumFrom] at h
    rcases List.mem_cons.mp h with h | h
    · rw [h]
      exact List.mem_cons_self x xs
    · exact List.mem_cons_of_mem x (ih h)

theorem ruleIssue_type {lines : List (List Char)} {nr : String × (List Char → Bool)}
    {i : Issue} (h : ruleIssue lines nr = some i) : i.type = pyTitle nr.1 := by
  unfold ruleIssue at h
  split at h
  · exact absurd h (by simp)
  · split at h
    · exact absurd h (by simp)
    · rw [Option.some_inj] at h
      rw [← h]

theorem onlyNl_pyComplexRegex : OnlyNl pyComplexRegex := by
  show OnlyNl (.seq pyComplexHead (atLeast 20 contLineRegex))
  refine Or.inr ?_
  show OnlyNl (.seq (repN 20 contLineRegex) (.star contLineRegex))
  refine Or.inl ?_
  show OnlyNl (.seq contLineRegex (repN 19 contLineRegex))
  refine Or.inl ?_
  show OnlyNl (.seq (chR '\n') (.seq (plusR spcC) (.star dotC)))
  refine Or.inl ?_
  intro c h
  exact eq_of_beq h

theorem dedupGo_mem_not_seen {s : Suggestion} :
    ∀ {xs : List Suggestion} {seen : List String}, s ∈ dedupGo seen xs →
      seen.contains s.suggestion = false := by
  intro xs
  induction xs with
  | nil => intro seen h; simp [dedupGo] at h
  | cons x xs ih =>
    intro seen h
    unfold dedupGo at h
    split at h
    · exact ih h
    · rename_i hc
      rcases List.mem_cons.mp h with h | h
      · subst h
        simpa using hc
      · have := ih h
        rw [List.contains_cons] at this
        exact (Bool.or_eq_false_iff.mp this).2

theorem dedupGo_pairwise :
    ∀ (xs : List Suggestion) (seen : List String),
      (dedupGo seen xs).Pairwise (fun a b => a.suggestion ≠ b.suggestion) := by
  intro xs
  induction xs with
  | nil => intro seen; exact List.Pairwise.nil
  | cons x xs ih =>
    intro seen
    unfold dedupGo
    split
    · exact ih seen
    · refine List.Pairwise.cons ?_ (ih _)
      intro b hb
      have := dedupGo_mem_not_seen hb
      rw [List.contains_cons, Bool.or_eq_false_iff] at this
      intro he
      rw [he] at this
      simp at this

theorem dedupGo_eq_specDedup :
    ∀ (xs : List Suggestion) (seen : List String),
      dedupGo seen xs = specDedup (xs.filter (fun y => !(seen.contains y.suggestion))) := by
  intro xs
  induction xs with
  | nil => intro seen; simp [dedupGo, specDedup]
  | cons x xs ih =>
    intro seen
    unfold dedupGo
    rw [List.filter_cons]
    split
    · rename_i hc
      rw [hc]
      simp only [Bool.not_true, Bool.false_eq_true, if_false]
      exact ih seen
    · rename_i hc
      rw [Bool.not_eq_true] at hc
      rw [hc]
      simp only [Bool.not_false, if_true]
      rw [specDedup, ih (x.suggestion :: seen), List.filter_filter]
      congr 2
      apply List.filter_congr
      intro y _
      simp only [List.contains_cons, Bool.not_or]

theorem dedupGo_nil_eq (xs : List Suggestion) : dedupGo [] xs = specDedup xs := by
  rw [dedupGo_eq_specDedup]
  congr 1
  rw [List.filter_eq_self]
  intro a _
  rfl

theorem analyze_cond_false {code : List Char} (hne : pyStrip code ≠ []) :
    (code.isEmpty || (pyStrip code).isEmpty) = false := by
  have hcode : code ≠ [] := fun h => hne (by rw [h]; rfl)
  simp only [Bool.or_eq_false_iff, List.isEmpty_eq_false]
  exact ⟨hcode, hne⟩

/-! ## The claims -/

/-- C1: for every source text that is not empty and not whitespace-only,
and every filename and language key, when depth is not "Deep" the returned
quality score equals `max(1.0, 10.0 - 0.5 * n)` where `n` is the length of
the returned issues list. -/
theorem C1_score_formula (code : List Char) (fn ext depth : String) (coin : Bool)
    (hne : pyStrip code ≠ []) (_hdepth : depth ≠ "Deep") :
    (analyze_code code fn ext depth coin).quality_score =
      max 1 (10 - (1/2) * ((analyze_code code fn ext depth coin).issues.length : ℚ)) := by
  unfold analyze_code
  rw [analyze_cond_false hne]
  simp only [Bool.false_eq_true, if_false]
  rw [mul_comm]

/-- C1 witness: a concrete one-character file at depth "Standard". -/
theorem C1_score_formula_witness :
    (analyze_code "x".data "a.txt" "txt" "Standard" false).quality_score =
      max 1 (10 - (1/2) * ((analyze_code "x".data "a.txt" "txt" "Standard" false).issues.length : ℚ)) :=
  C1_score_formula "x".data "a.txt" "txt" "Standard" false (by decide) (by decide)

/-- C2: for empty or whitespace-only source text, every filename, language
key and depth, the analyzer returns score 5.0, exactly one "Empty File"
issue, and no suggestions, without scanning (the definition returns this
fixed record before any pattern or heuristic function is consulted). -/
theorem C2_empty_input (code : List Char) (fn ext depth : String) (coin : Bool)
    (hws : ∀ c ∈ code, isPySpace c = true) :
    analyze_code code fn ext depth coin =
      { quality_score := 5, issues := [emptyFileIssue], suggestions := [] } := by
  unfold analyze_code
  rw [if_pos]
  simp only [Bool.or_eq_true, List.isEmpty_eq_true]
  right
  unfold pyStrip
  rw [List.dropWhile_eq_nil_iff.mpr hws]
  rfl

/-- C2 witness: a concrete whitespace-only file. -/
theorem C2_empty_input_witness :
    analyze_code "  \n\t ".data "f.py" "py" "Deep" true =
      { quality_score := 5, issues := [emptyFileIssue], suggestions := [] } :=
  C2_empty_input "  \n\t ".data "f.py" "py" "Deep" true (by decide)

/-- C3: for every input (including the randomized "Deep" path) the
returned quality score lies in [1.0, 10.0], and equals 10.0 only when the
returned issues list is empty. -/
theorem C3_score_bounds (code : List Char) (fn ext depth : String) (coin : Bool) :
    1 ≤ (analyze_code code fn ext depth coin).quality_score ∧
    (analyze_code code fn ext depth coin).quality_score ≤ 10 ∧
    ((analyze_code code fn ext depth coin).quality_score = 10 →
      (analyze_code code fn ext depth coin).issues = []) := by
  unfold analyze_code
  split
  · dsimp only
    exact ⟨by norm_num, by norm_num, fun h => absurd h (by norm_num)⟩
  · dsimp only
    refine ⟨le_max_left _ _, ?_, ?_⟩
    · apply max_le (by norm_num)
      have h0 : (0:ℚ) ≤ ((finalIssues code ext depth coin).length : ℚ) * (1/2) := by
        positivity
      linarith
    · intro h10
      have hlen : (finalIssues code ext depth coin).length = 0 := by
        by_contra hne
        have h1 : (1:ℚ) ≤ ((finalIssues code ext depth coin).length : ℚ) := by
          exact_mod_cast Nat.one_le_iff_ne_zero.mpr hne
        have hle : max (1:ℚ)
            (10 - ((finalIssues code ext depth coin).length : ℚ) * (1/2)) ≤ 19/2 := by
          apply max_le <;> linarith
        rw [h10] at hle
        linarith
      exact List.length_eq_zero.mp hlen

theorem quality_score_eval {code : List Char} (fn : String) {ext depth : String}
    {coin : Bool} (hc : (code.isEmpty || (pyStrip code).isEmpty) = false)
    {n : Nat} (hn : (finalIssues code ext depth coin).length = n) :
    (analyze_code code fn ext depth coin).quality_score = max 1 (10 - (n:ℚ) * (1/2)) := by
  unfold analyze_code
  rw [hc]
  simp only [Bool.false_eq_true, if_false]
  rw [hn]

/-- C3 witness: a concrete issue-free file whose score is exactly 10. -/
theorem C3_score_bounds_witness :
    (analyze_code "x".data "b.txt" "txt" "Basic" false).issues = [] :=
  (C3_score_bounds "x".data "b.txt" "txt" "Basic" false).2.2 (by
    rw [quality_score_eval "b.txt" (by decide)
      (show (finalIssues "x".data "txt" "Basic" false).length = 0 by decide)]
    norm_num)

/-- C4: the spec's scenario — a 5-line snippet tagged with extension
`py` containing `api_key = "ac87520ee84f3"` on line 3 — does NOT produce
the claimed hardcoded-secrets issue, score 9.5 and suggestion: because
`code_patterns` is keyed by language names (`python`, ...) while the
lookup uses the file extension (`py`), the default table (whose secrets
alternation lacks `api_key`) is scanned and nothing fires; the result is
score 10.0 with no issues and no suggestions.  The last conjunct shows
the same input under the `python`-keyed table does fire on line 3, which
is what the scenario (and the code's own data) intends. -/
theorem C4_py_extension_result :
    (analyze_code c4code "config.py" "py" "Standard" false).issues = [] ∧
    (analyze_code c4code "config.py" "py" "Standard" false).suggestions = [] ∧
    (analyze_code c4code "config.py" "py" "Standard" false).quality_score = 10 ∧
    (pattern_analysis c4code "python").map (fun i => (i.type, i.lines)) =
      [("Hardcoded Secrets", some [3])] := by
  have hc : (c4code.isEmpty || (pyStrip c4code).isEmpty) = false := by decide
  have hfi : finalIssues c4code "py" "Standard" false = [] := by decide
  refine ⟨?_, ?_, ?_, by decide⟩
  · unfold analyze_code
    rw [hc]
    simp only [Bool.false_eq_true, if_false]
    exact hfi
  · unfold analyze_code
    rw [hc]
    simp only [Bool.false_eq_true, if_false]
    rw [hfi]
    decide
  · rw [quality_score_eval "config.py" hc (by rw [hfi])]
    norm_num

/-- C5: an unrecognized language key scans with the default pattern table
and produces the same issues as the literal key `"default"`, but the
analysis results are NOT identical: no `code_after` example is ever
attached for an unknown key (the suggestion language resolves to the
literal string `"default"`, absent from every `code_after` table, because
`lang_map.get(ext, 'default')` returns its fallback argument instead of
consulting the table's own `'default': 'py'` entry), whereas the key
`"default"` attaches the python example. -/
theorem C5_unknown_key_code_after :
    (analyze_code c5code "f.xyz" "xyz" "Standard" false).issues =
      (analyze_code c5code "f.xyz" "default" "Standard" false).issues ∧
    ((analyze_code c5code "f.xyz" "xyz" "Standard" false).suggestions).map
        (fun s => s.code_after) = [none] ∧
    ((analyze_code c5code "f.xyz" "default" "Standard" false).suggestions).map
        (fun s => s.code_after) =
      [some "import os\napi_key = os.environ.get(\x27API_KEY\x27)"] := by
  decide

/-- C6: for every non-empty input the returned suggestions list has no two
entries with identical advice text, and it equals the spec's first-kept,
order-preserving deduplication of the raw (pre-deduplication) suggestion
list. -/
theorem C6_dedup (code : List Char) (fn ext depth : String) (coin : Bool)
    (hne : pyStrip code ≠ []) :
    (analyze_code code fn ext depth coin).suggestions.Pairwise
        (fun a b => a.suggestion ≠ b.suggestion) ∧
    (analyze_code code fn ext depth coin).suggestions =
      specDedup (rawSuggestions (analyze_code code fn ext depth coin).issues ext) := by
  unfold analyze_code
  rw [analyze_cond_false hne]
  simp only [Bool.false_eq_true, if_false]
  unfold generate_suggestions
  exact ⟨dedupGo_pairwise _ _, dedupGo_nil_eq _⟩

/-- C6 witness: two secret lines whose issues map to the same template, so
the raw list has a duplicate that deduplication removes. -/
theorem C6_dedup_witness :
    (analyze_code c6code "f" "zz" "Standard" false).suggestions.Pairwise
        (fun a b => a.suggestion ≠ b.suggestion) ∧
    (analyze_code c6code "f" "zz" "Standard" false).suggestions =
      specDedup (rawSuggestions (analyze_code c6code "f" "zz" "Standard" false).issues "zz") :=
  C6_dedup c6code "f" "zz" "Standard" false (by decide)

/-- C7: for every language key, the heuristic analyzer emits exactly one
"Code Size" (large file) issue when the text splits into more than 200
lines, and none otherwise; in particular a 250-line file always gets one
and a 150-line file never does. -/
theorem C7_large_file (code : List Char) (ext : String) :
    ((simulated_ai_analysis code ext).filter (fun i => i.type == "Code Size")).length =
      if 200 < (splitNl code).length then 1 else 0 := by
  unfold simulated_ai_analysis
  simp only [List.filter_append, List.length_append]
  split_ifs <;> simp_all

/-- C8 counterexample: a line of 17 carriage returns before the only
non-whitespace character.  Its maximum leading space/tab width (as the
claim defines the width) is 0 ≤ 16, yet the analyzer emits a deep-nesting
issue, because `len(line) - len(line.lstrip())` counts every leading
whitespace character, not only spaces and tabs. -/
theorem C8_counterexample :
    specMaxSpaceTabWidth badNest = 0 ∧
    ((simulated_ai_analysis badNest "txt").filter
        (fun i => i.type == "Deep Nesting")).length = 1 := by
  decide

/-- C8 amended: for every language key, the heuristic analyzer emits
exactly one deep-nesting issue precisely when the maximum per-line
leading-whitespace width — counting every leading whitespace character
(spaces, tabs, carriage returns, form feeds, vertical tabs), i.e.
`len(line) - len(line.lstrip())` — exceeds 16, and none otherwise.  With
that width, maximum 20 always produces the issue and maximum 8 never
does. -/
theorem C8_deep_nesting_lstrip (code : List Char) (ext : String) :
    ((simulated_ai_analysis code ext).filter (fun i => i.type == "Deep Nesting")).length =
      if 16 < maxIndentation code then 1 else 0 := by
  unfold simulated_ai_analysis
  simp only [List.filter_append, List.length_append]
  split_ifs <;> simp_all

/-- C9: for depth ≠ "Deep" the analyzer is deterministic — the result does
not depend on the random draw — and the probabilistic maintainability
issue is never appended: the issue list is exactly the scanner results
followed by the heuristic results (or the single empty-file issue). -/
theorem C9_deterministic (code : List Char) (fn ext depth : String) (c1 c2 : Bool)
    (hdepth : depth ≠ "Deep") :
    analyze_code code fn ext depth c1 = analyze_code code fn ext depth c2 ∧
    (analyze_code code fn ext depth c1).issues =
      (if code.isEmpty || (pyStrip code).isEmpty then [emptyFileIssue]
       else pattern_analysis code ext ++ simulated_ai_analysis code ext) := by
  have hbeq : (depth == "Deep") = false := by
    simp only [beq_eq_false_iff_ne, ne_eq]
    exact hdepth
  have hfi : ∀ c : Bool, finalIssues code ext depth c =
      pattern_analysis code ext ++ simulated_ai_analysis code ext := by
    intro c
    unfold finalIssues
    rw [hbeq, Bool.and_false]
    simp
  constructor
  · unfold analyze_code
    rw [hfi c1, hfi c2]
  · unfold analyze_code
    split
    · rfl
    · exact hfi c1

/-- C9 witness: concrete input at depth "Standard" under both outcomes of
the random draw. -/
theorem C9_deterministic_witness :
    analyze_code "y = 1".data "f.py" "py" "Standard" true =
      analyze_code "y = 1".data "f.py" "py" "Standard" false ∧
    (analyze_code "y = 1".data "f.py" "py" "Standard" true).issues =
      (if "y = 1".data.isEmpty || (pyStrip "y = 1".data).isEmpty then [emptyFileIssue]
       else pattern_analysis "y = 1".data "py" ++ simulated_ai_analysis "y = 1".data "py") :=
  C9_deterministic "y = 1".data "f.py" "py" "Standard" true false (by decide)

/-- C10: under the `python` pattern table the `complex_function` rule can
never produce an issue: its regex demands at least 20 `\n`-started
continuation segments, but the scanner applies it to one line at a time
and a line from `split('\n')` contains no newline. -/
theorem C10_complex_function_never (code : List Char) :
    (pattern_analysis code "python").filter (fun i => i.type == "Complex Function") = [] := by
  rw [List.filter_eq_nil_iff]
  intro i hi
  unfold pattern_analysis patternsFor at hi
  rw [if_pos rfl] at hi
  rw [List.mem_filterMap] at hi
  obtain ⟨nr, hmem, hrule⟩ := hi
  simp only [pythonPatterns, List.mem_cons, List.not_mem_nil, or_false] at hmem
  rcases hmem with h|h|h|h|h|h|h|h <;> subst h
  · rw [ruleIssue_type hrule]; decide
  · rw [ruleIssue_type hrule]; decide
  · rw [ruleIssue_type hrule]; decide
  · rw [ruleIssue_type hrule]; decide
  · exfalso
    have hms : ruleMatches (splitNl code) (fun l => searchM pyComplexRegex l) = [] := by
      have hfil : (splitNl code).enum.filter (fun p => searchM pyComplexRegex p.2) = [] := by
        rw [List.filter_eq_nil_iff]
        intro p hp
        have hline : p.2 ∈ splitNl code := mem_of_mem_enumFrom hp
        have hnl := splitNl_no_nl code p.2 hline
        have hfalse := searchM_false_of_onlyNl p.2 pyComplexRegex onlyNl_pyComplexRegex
          (fun c hc he => hnl (he ▸ hc))
        simp [hfalse]
      unfold ruleMatches
      rw [hfil]
      rfl
    unfold ruleIssue at hrule
    rw [hms] at hrule
    simp at hrule
  · rw [ruleIssue_type hrule]; decide
  · rw [ruleIssue_type hrule]; decide
  · rw [ruleIssue_type hrule]; decide
